import Mathlib

/-!
Verification of the `BuildRecipePage` component
(`src/app/src/pages/BuildRecipePage.js`).

The component state, the `deploy` orchestration, the `closeLoader` action and
the lazy form initialization are embedded as pure Lean functions.  Asynchronous
external collaborators (the HTTP API and the mint capability of the `crafty`
contract handle) are modelled by an environment record that fixes their
responses for one run, and every external call made during a run is recorded
in an explicit trace.
-/

namespace BuildRecipePage

/-- One ingredient row of the form: `{ id, address, amount }`. -/
structure IngredientRow where
  id : Nat
  address : String
  amount : String
deriving Repr, DecidableEq

/-- The form schema built by `buildRecipeForm`: scalar fields `image`, `name`,
`symbol`, `description` and the ordered list of ingredient rows (`inputs`). -/
structure Form where
  image : String
  name : String
  symbol : String
  description : String
  inputs : List IngredientRow
deriving Repr, DecidableEq

/-- The observable component state: `deploying`, `playing`, `totallyDone`,
`tokenAddress` (unset is `none`) and `form` (`null` is `none`). -/
structure PageState where
  deploying : Bool
  playing : Bool
  totallyDone : Bool
  tokenAddress : Option String
  form : Option Form
deriving Repr, DecidableEq

/-- The initial state declared by the `@observable` class fields:
`deploying = false`, `playing = false`, `totallyDone = false`,
`tokenAddress` undefined, `form = null`. -/
def initState : PageState :=
  { deploying := false
    playing := false
    totallyDone := false
    tokenAddress := none
    form := none }

/-- The environment of one `deploy()` run: whether the `crafty` handle is
present, the HTTP statuses and bodies returned by the two endpoints, the
result of `crafty.addCraftable` (`none` models a rejected promise), and the
current wallet address. -/
structure Env where
  crafty : Bool
  thumbnailStatus : Nat
  thumbnailData : String
  metadataStatus : Nat
  metadataData : String
  mintResult : Option String
  currentAddress : String
deriving Repr, DecidableEq

/-- An external call made during a run: a POST to `/thumbnail` (with the
`image-base64` payload, `none` when `split` yielded no second component),
a POST to `/metadata`, or an invocation of `crafty.addCraftable`. -/
inductive Call where
  | thumbnailPost (imageBase64 : Option String)
  | metadataPost (name description image author : String)
  | mint (name symbol uri : String) (ingredients amounts : List String)
deriving Repr, DecidableEq

/-- Whether a call is a POST to the metadata endpoint. -/
def Call.isMetadata : Call → Bool
  | .metadataPost _ _ _ _ => true
  | _ => false

/-- Whether a call is an invocation of the mint capability. -/
def Call.isMint : Call → Bool
  | .mint _ _ _ _ _ => true
  | _ => false

/-- JavaScript `String.prototype.split` on a one-character separator,
on explicit character lists; `acc` holds the current segment reversed. -/
def jsSplitAux (sep : Char) : List Char → List Char → List (List Char)
  | [], acc => [acc.reverse]
  | c :: cs, acc =>
      if c = sep then acc.reverse :: jsSplitAux sep cs []
      else jsSplitAux sep cs (c :: acc)

/-- JavaScript `s.split(sep)` for a one-character separator. -/
def jsSplit (sep : Char) (s : String) : List String :=
  (jsSplitAux sep s.data []).map String.mk

/-- The expression `image.split(/,/)[1]`: the second component of the comma-split, or
`undefined` (`none`) when there is no comma in the string. -/
def stripDataUri (image : String) : Option String :=
  (jsSplit ',' image)[1]?

/-- Method `uploadMetadata(name, description, image, author)`: POST the stripped
base64 payload to `/thumbnail`; on a non-200 status throw
`Unexpected API response: <status>`; otherwise POST the metadata (with the
thumbnail response body as `image`) to `/metadata`; on a non-200 status throw
the same error; otherwise return the metadata response body.  The second
component is the list of HTTP calls made. -/
def uploadMetadata (env : Env) (name description image author : String) :
    Except String String × List Call :=
  let thumbCall := Call.thumbnailPost (stripDataUri image)
  if env.thumbnailStatus ≠ 200 then
    (Except.error ("Unexpected API response: " ++ toString env.thumbnailStatus),
     [thumbCall])
  else
    let metaCall := Call.metadataPost name description env.thumbnailData author
    if env.metadataStatus ≠ 200 then
      (Except.error ("Unexpected API response: " ++ toString env.metadataStatus),
       [thumbCall, metaCall])
    else
      (Except.ok env.metadataData, [thumbCall, metaCall])

/-- Predicate `_canDeploy()`: true exactly when the `crafty` handle is present. -/
def canDeploy (env : Env) : Bool :=
  env.crafty

/-- Action `deploy()`: return immediately when `_canDeploy()` is false; otherwise set
`deploying = true`, read the form values, run `uploadMetadata`, invoke
`crafty.addCraftable` with the metadata URI and the mapped ingredient
address/amount lists, record `tokenAddress` and `totallyDone` on success,
swallow any error, and finally set `deploying = false`.  A `null` form makes
`this.form.values()` throw inside the `try`, reaching the `finally` with no
external call made.  Returns the final state and the trace of external
calls. -/
def deploy (env : Env) (s : PageState) : PageState × List Call :=
  if ¬ canDeploy env then (s, [])
  else
    let s₁ : PageState := { s with deploying := true }
    match s₁.form with
    | none => ({ s₁ with deploying := false }, [])
    | some f =>
      let ingredients := f.inputs.map IngredientRow.address
      let amounts := f.inputs.map IngredientRow.amount
      match uploadMetadata env f.name f.description f.image env.currentAddress with
      | (Except.error _, calls) => ({ s₁ with deploying := false }, calls)
      | (Except.ok uri, calls) =>
        let mintCall := Call.mint f.name f.symbol uri ingredients amounts
        match env.mintResult with
        | none => ({ s₁ with deploying := false }, calls ++ [mintCall])
        | some addr =>
          ({ s₁ with
              tokenAddress := some addr
              totallyDone := true
              deploying := false },
           calls ++ [mintCall])

/-- Action `closeLoader()`: set `playing = false` and `totallyDone = true`. -/
def closeLoader (s : PageState) : PageState :=
  { s with playing := false, totallyDone := true }

/-- Modelled from the spec: `buildRecipeForm` lives in
`src/app/src/forms/BuildRecipe`, which is not among the provided sources.
Per the spec, it constructs the form schema from the canonical token list
with an empty ingredient list; the page then appends one empty row itself. -/
def buildRecipeForm : Form :=
  { image := ""
    name := ""
    symbol := ""
    description := ""
    inputs := [] }

/-- Action `_addInput()`: append one fresh row (with a new id, scalar
subfields starting empty) to the ingredient list of the form. -/
def addInput (newId : Nat) (f : Form) : Form :=
  { f with inputs := f.inputs ++ [{ id := newId, address := "", amount := "" }] }

/-- The body of the `setTimeout` callback in `_lazyInitForm`: build the form
and add the initial input row. -/
def lazyInitCallback (newId : Nat) (s : PageState) : PageState :=
  { s with form := some (addInput newId buildRecipeForm) }

/-- The delay `Math.max(0, 800 - diff)`: the extra delay scheduled before the form is
built, as a function of the elapsed time `diff` (ms) between construction and
the readiness flag resolving. -/
def restDelay (diff : Int) : Int :=
  max 0 (800 - diff)

/-- The time (ms after construction) at which the `setTimeout` callback fires
and the form becomes available: the readiness resolution time plus the
scheduled delay. -/
def formAvailableTime (diff : Int) : Int :=
  diff + restDelay diff

/-- One user-visible operation on the component state. -/
inductive Step : PageState → PageState → Prop where
  | lazyInit (newId : Nat) (s : PageState) : Step s (lazyInitCallback newId s)
  | close (s : PageState) : Step s (closeLoader s)
  | deployOp (env : Env) (s : PageState) : Step s (deploy env s).1

/-- The states reachable from the initial state by the operations of the component
itself. -/
inductive Reachable : PageState → Prop where
  | init : Reachable initState
  | step {s s' : PageState} : Reachable s → Step s s' → Reachable s'

/-- Sample two-row form used in concrete witnesses. -/
def formW : Form :=
  { image := "data:image/png;base64,QUJD"
    name := "Gold"
    symbol := "GLD"
    description := "a golden token"
    inputs :=
      [ { id := 1, address := "0xA", amount := "1" }
      , { id := 2, address := "0xB", amount := "2" } ] }

/-- Sample state with the form initialized, used in concrete witnesses. -/
def stateW : PageState :=
  { initState with form := some formW }

/-- Sample all-success environment used in concrete witnesses. -/
def env200 : Env :=
  { crafty := true
    thumbnailStatus := 200
    thumbnailData := "img-ref"
    metadataStatus := 200
    metadataData := "meta-uri"
    mintResult := some ("0xTOKEN")
    currentAddress := "0xME" }

/-- Sample environment whose thumbnail endpoint returns 500. -/
def env500 : Env :=
  { env200 with thumbnailStatus := 500 }

/-- Sample environment whose metadata endpoint returns 500. -/
def envMeta500 : Env :=
  { env200 with metadataStatus := 500 }

/-- Sample environment with no `crafty` handle. -/
def envNoCrafty : Env :=
  { env200 with crafty := false }

/-- The action `deploy` never writes the `playing` flag. -/
theorem deploy_playing (env : Env) (s : PageState) :
    (deploy env s).1.playing = s.playing := by
  cases hcd : canDeploy env with
  | false => simp [deploy, hcd]
  | true =>
    cases hf : s.form with
    | none => simp [deploy, hcd, hf]
    | some f =>
      rcases hup : uploadMetadata env f.name f.description f.image
          env.currentAddress with ⟨res, calls⟩
      cases res with
      | error e => simp [deploy, hcd, hf, hup]
      | ok uri =>
        cases hr : env.mintResult with
        | none => simp [deploy, hcd, hf, hup, hr]
        | some addr => simp [deploy, hcd, hf, hup, hr]

end BuildRecipePage

namespace BuildRecipePage

/-- C10: the `playing` flag is false in every reachable state of the
component: it starts false, `deploy` never writes it, `closeLoader` only sets
it to false, and the lazy-init callback does not touch it. -/
theorem playing_always_false (s : PageState) (hs : Reachable s) :
    s.playing = false := by
  induction hs with
  | init => rfl
  | step _ hstep ih =>
    cases hstep with
    | lazyInit newId s => exact ih
    | close s => rfl
    | deployOp env s => rw [deploy_playing]; exact ih

/-- Witness for C10 at the initial state. -/
theorem playing_always_false_witness :
    Reachable initState ∧ initState.playing = false :=
  ⟨Reachable.init, playing_always_false initState Reachable.init⟩

/-- C2: in a run of `deploy()` in which both uploads return 200 and the mint
capability resolves with `addr`, the final state has `tokenAddress = addr`,
`totallyDone = true` and `deploying = false`. -/
theorem deploy_success (env : Env) (s : PageState) (f : Form) (addr : String)
    (hc : env.crafty = true) (hf : s.form = some f)
    (ht : env.thumbnailStatus = 200) (hm : env.metadataStatus = 200)
    (hr : env.mintResult = some addr) :
    (deploy env s).1.tokenAddress = some addr ∧
    (deploy env s).1.totallyDone = true ∧
    (deploy env s).1.deploying = false := by
  simp [deploy, canDeploy, uploadMetadata, hc, hf, ht, hm, hr]

/-- Witness for C2 on a concrete all-success run. -/
theorem deploy_success_witness :
    env200.crafty = true ∧ stateW.form = some formW ∧
    env200.thumbnailStatus = 200 ∧ env200.metadataStatus = 200 ∧
    env200.mintResult = some ("0xTOKEN") ∧
    ((deploy env200 stateW).1.tokenAddress = some ("0xTOKEN") ∧
     (deploy env200 stateW).1.totallyDone = true ∧
     (deploy env200 stateW).1.deploying = false) :=
  ⟨rfl, rfl, rfl, rfl, rfl,
   deploy_success env200 stateW formW ("0xTOKEN") rfl rfl rfl rfl rfl⟩

/-- C5: when the `crafty` handle is absent, `deploy()` returns before touching
any state: the final state is the input state (every field unchanged) and no
external call is made. -/
theorem deploy_noop_without_crafty (env : Env) (s : PageState)
    (hc : env.crafty = false) :
    deploy env s = (s, []) := by
  simp [deploy, canDeploy, hc]

/-- Witness for C5 on a concrete crafty-less environment. -/
theorem deploy_noop_without_crafty_witness :
    envNoCrafty.crafty = false ∧ deploy envNoCrafty stateW = (stateW, []) :=
  ⟨rfl, deploy_noop_without_crafty envNoCrafty stateW rfl⟩

/-- C7: after the lazy-init callback runs, the form exists and its ingredient
list contains exactly one row. -/
theorem lazyInit_one_row (s : PageState) (newId : Nat) :
    ∃ f, (lazyInitCallback newId s).form = some f ∧ f.inputs.length = 1 :=
  ⟨addInput newId buildRecipeForm, rfl, rfl⟩

/-- C8: the scheduled delay is `max(0, 800 − diff)`, so the callback that
builds the form fires exactly `max(800, diff)` ms after construction: never
earlier than 800 ms and never before the readiness flag resolves (at
`diff`). -/
theorem formAvailable_min_delay (diff : Int) :
    restDelay diff = max 0 (800 - diff) ∧
    formAvailableTime diff = max 800 diff ∧
    diff ≤ formAvailableTime diff ∧
    800 ≤ formAvailableTime diff := by
  unfold formAvailableTime restDelay
  have key : diff + max 0 (800 - diff) = max 800 diff := by
    rcases le_total diff 800 with h | h
    · rw [max_eq_right (by omega : (0:Int) ≤ 800 - diff), max_eq_left h]
      omega
    · rw [max_eq_left (by omega : 800 - diff ≤ (0:Int)), max_eq_right h]
      omega
  refine ⟨rfl, key, ?_, ?_⟩
  · rw [key]; exact le_max_right _ _
  · rw [key]; exact le_max_left _ _

/-- C1: the claimed invariant fails in the code: `closeLoader` sets
`totallyDone = true` without setting `tokenAddress`, so the state reached by
closing the loader from the initial state (before any successful mint) has
`totallyDone` true while `tokenAddress` is still unset.  The design notes of the spec
(section 9) flag this as a likely latent bug. -/
theorem closeLoader_breaks_invariant :
    Reachable (closeLoader initState) ∧
    (closeLoader initState).totallyDone = true ∧
    (closeLoader initState).tokenAddress = none :=
  ⟨Reachable.step Reachable.init (Step.close initState), rfl, rfl⟩

/-- C3: in a run of `deploy()` in which the thumbnail endpoint returns a
non-200 status, the trace contains no metadata call and no mint invocation,
`totallyDone` stays false and `deploying` ends false. -/
theorem deploy_thumbnail_error (env : Env) (s : PageState) (f : Form)
    (hc : env.crafty = true) (hf : s.form = some f)
    (ht : env.thumbnailStatus ≠ 200) (hd : s.totallyDone = false) :
    (∀ c ∈ (deploy env s).2, c.isMetadata = false ∧ c.isMint = false) ∧
    (deploy env s).1.totallyDone = false ∧
    (deploy env s).1.deploying = false := by
  simp [deploy, canDeploy, uploadMetadata, hc, hf, ht, hd,
    Call.isMetadata, Call.isMint]

/-- Witness for C3 on a concrete run whose thumbnail endpoint returns 500. -/
theorem deploy_thumbnail_error_witness :
    env500.crafty = true ∧ stateW.form = some formW ∧
    env500.thumbnailStatus ≠ 200 ∧ stateW.totallyDone = false ∧
    ((∀ c ∈ (deploy env500 stateW).2, c.isMetadata = false ∧ c.isMint = false) ∧
     (deploy env500 stateW).1.totallyDone = false ∧
     (deploy env500 stateW).1.deploying = false) :=
  ⟨rfl, rfl, by decide, rfl,
   deploy_thumbnail_error env500 stateW formW rfl rfl (by decide) rfl⟩

/-- C4: in a run of `deploy()` in which the thumbnail endpoint returns 200 but
the metadata endpoint returns a non-200 status, the mint capability is never
invoked, `totallyDone` stays false and `deploying` ends false. -/
theorem deploy_metadata_error (env : Env) (s : PageState) (f : Form)
    (hc : env.crafty = true) (hf : s.form = some f)
    (ht : env.thumbnailStatus = 200) (hm : env.metadataStatus ≠ 200)
    (hd : s.totallyDone = false) :
    (∀ c ∈ (deploy env s).2, c.isMint = false) ∧
    (deploy env s).1.totallyDone = false ∧
    (deploy env s).1.deploying = false := by
  simp [deploy, canDeploy, uploadMetadata, hc, hf, ht, hm, hd, Call.isMint]

/-- Witness for C4 on a concrete run whose metadata endpoint returns 500. -/
theorem deploy_metadata_error_witness :
    envMeta500.crafty = true ∧ stateW.form = some formW ∧
    envMeta500.thumbnailStatus = 200 ∧ envMeta500.metadataStatus ≠ 200 ∧
    stateW.totallyDone = false ∧
    ((∀ c ∈ (deploy envMeta500 stateW).2, c.isMint = false) ∧
     (deploy envMeta500 stateW).1.totallyDone = false ∧
     (deploy envMeta500 stateW).1.deploying = false) :=
  ⟨rfl, rfl, rfl, by decide, rfl,
   deploy_metadata_error envMeta500 stateW formW rfl rfl rfl (by decide) rfl⟩

/-- C6: when both uploads succeed, the mint capability is invoked with the
address list and the amount list mapped from the ingredient rows in their
insertion order: the i-th address and the i-th amount come from the i-th
row. -/
theorem deploy_mint_order (env : Env) (s : PageState) (f : Form)
    (hc : env.crafty = true) (hf : s.form = some f)
    (ht : env.thumbnailStatus = 200) (hm : env.metadataStatus = 200) :
    Call.mint f.name f.symbol env.metadataData
        (f.inputs.map IngredientRow.address) (f.inputs.map IngredientRow.amount)
      ∈ (deploy env s).2 ∧
    ∀ i : Nat,
      (f.inputs.map IngredientRow.address)[i]? =
        (f.inputs[i]?).map IngredientRow.address ∧
      (f.inputs.map IngredientRow.amount)[i]? =
        (f.inputs[i]?).map IngredientRow.amount := by
  constructor
  · cases hr : env.mintResult <;>
      simp [deploy, canDeploy, uploadMetadata, hc, hf, ht, hm, hr]
  · intro i
    constructor <;> simp

/-- Witness for C6 on the concrete two-row form: the mint call receives
`["0xA", "0xB"]` and `["1", "2"]` in row order. -/
theorem deploy_mint_order_witness :
    env200.crafty = true ∧ stateW.form = some formW ∧
    env200.thumbnailStatus = 200 ∧ env200.metadataStatus = 200 ∧
    Call.mint ("Gold") ("GLD") ("meta-uri") ["0xA", "0xB"] ["1", "2"]
      ∈ (deploy env200 stateW).2 ∧
    (formW.inputs.map IngredientRow.address)[0]? = some ("0xA") ∧
    (formW.inputs.map IngredientRow.address)[1]? = some ("0xB") ∧
    (formW.inputs.map IngredientRow.amount)[0]? = some ("1") ∧
    (formW.inputs.map IngredientRow.amount)[1]? = some ("2") :=
  ⟨rfl, rfl, rfl, rfl,
   (deploy_mint_order env200 stateW formW rfl rfl rfl rfl).1,
   by decide, by decide, by decide, by decide⟩

/-- Splitting a list without the separator yields one segment. -/
theorem jsSplitAux_no_sep (sep : Char) (l acc : List Char) (h : sep ∉ l) :
    jsSplitAux sep l acc = [acc.reverse ++ l] := by
  induction l generalizing acc with
  | nil => simp [jsSplitAux]
  | cons c cs ih =>
    have hc : ¬ c = sep := by rintro rfl; exact h (List.mem_cons_self _ _)
    rw [jsSplitAux, if_neg hc, ih _ (fun hm => h (List.mem_cons_of_mem _ hm))]
    simp

/-- Splitting past the first separator occurrence closes the first segment. -/
theorem jsSplitAux_found (sep : Char) (pre rest acc : List Char)
    (hp : sep ∉ pre) :
    jsSplitAux sep (pre ++ sep :: rest) acc =
      (acc.reverse ++ pre) :: jsSplitAux sep rest [] := by
  induction pre generalizing acc with
  | nil => simp [jsSplitAux]
  | cons c cs ih =>
    have hc : ¬ c = sep := by rintro rfl; exact hp (List.mem_cons_self _ _)
    rw [List.cons_append, jsSplitAux, if_neg hc,
        ih _ (fun hm => hp (List.mem_cons_of_mem _ hm))]
    simp

/-- On an image value of data-URI shape (one comma, none in either part) the
stripped payload is exactly the part after the comma. -/
theorem stripDataUri_of_split (pre rest : String)
    (hp : ',' ∉ pre.data) (hr : ',' ∉ rest.data) :
    stripDataUri (pre ++ "," ++ rest) = some rest := by
  have hdata : (pre ++ "," ++ rest).data = pre.data ++ ',' :: rest.data := by
    simp
  unfold stripDataUri jsSplit
  rw [hdata, jsSplitAux_found ',' pre.data rest.data [] hp,
      jsSplitAux_no_sep ',' rest.data [] hr]
  rfl

/-- On an image value with no comma the stripped payload is `undefined`. -/
theorem stripDataUri_no_comma (s : String) (h : ',' ∉ s.data) :
    stripDataUri s = none := by
  unfold stripDataUri jsSplit
  rw [jsSplitAux_no_sep ',' s.data [] h]
  rfl

/-- C9 as stated is false: for the image value "QUJD" — bare base64 with no
data-URI prefix — the `image-base64` field sent to the thumbnail endpoint is
`undefined` (`none`), not the bare base64 content. -/
theorem thumbnail_payload_cex :
    ((uploadMetadata env200 ("n") ("d") ("QUJD") ("a")).2)[0]? =
      some (Call.thumbnailPost none) ∧
    Call.thumbnailPost none ≠ Call.thumbnailPost (some ("QUJD")) := by
  exact ⟨by decide, by decide⟩

/-- C9 (amended): for an image value of data-URI shape the `image-base64`
field holds exactly the part after the comma (the bare base64 content, prefix
stripped); for an image value with no comma the field is `undefined`, not the
bare string; and a non-200 thumbnail response raises an
`Unexpected API response` error carrying the status code. -/
theorem thumbnail_payload (env : Env)
    (pre rest bare nm desc author : String)
    (hp : ',' ∉ pre.data) (hr : ',' ∉ rest.data) (hb : ',' ∉ bare.data)
    (hstatus : env.thumbnailStatus ≠ 200) :
    stripDataUri (pre ++ "," ++ rest) = some rest ∧
    stripDataUri bare = none ∧
    (uploadMetadata env nm desc (pre ++ "," ++ rest) author).2 =
      [Call.thumbnailPost (some rest)] ∧
    (uploadMetadata env nm desc (pre ++ "," ++ rest) author).1 =
      Except.error ("Unexpected API response: " ++ toString env.thumbnailStatus) := by
  have h1 := stripDataUri_of_split pre rest hp hr
  refine ⟨h1, stripDataUri_no_comma bare hb, ?_, ?_⟩ <;>
    simp [uploadMetadata, hstatus, h1]

/-- Witness for C9 (amended) on a concrete data-URI image and a 500
response. -/
theorem thumbnail_payload_witness :
    (',' ∉ ("data:image/png;base64").data) ∧ (',' ∉ ("QUJD").data) ∧
    env500.thumbnailStatus ≠ 200 ∧
    (stripDataUri ("data:image/png;base64" ++ "," ++ "QUJD") = some ("QUJD") ∧
     stripDataUri ("QUJD") = none ∧
     (uploadMetadata env500 ("Gold") ("a golden token")
        ("data:image/png;base64" ++ "," ++ "QUJD") "0xME").2 =
       [Call.thumbnailPost (some ("QUJD"))] ∧
     (uploadMetadata env500 ("Gold") ("a golden token")
        ("data:image/png;base64" ++ "," ++ "QUJD") "0xME").1 =
       Except.error ("Unexpected API response: " ++ toString env500.thumbnailStatus)) :=
  ⟨by decide, by decide, by decide,
   thumbnail_payload env500 ("data:image/png;base64") ("QUJD") ("QUJD")
     ("Gold") ("a golden token") ("0xME")
     (by decide) (by decide) (by decide) (by decide)⟩

end BuildRecipePage
